import Mathlib

/-!
Shallow embedding of the V-Qualia lap-time simulation engine
(`src/backend/engine`) in Lean 4, over the real numbers, together with
theorems settling the frozen claims about its specification.

C++ `double` arithmetic is modelled by `ℝ`; fallible operations
(C++ `throw`) are modelled by `Option`; `std::map<double,double>` is
modelled by a key-sorted association list; in-place vector updates are
modelled by functional list updates.
-/

namespace LapTimeSim

noncomputable section

/-- `VehicleParams::GRAVITY` (VehicleParams.h). -/
def GRAVITY : ℝ := 9.81

/-- `PowertrainModel::PI` literal constant (PowertrainModel.h). -/
def PI : ℝ := 3.14159265358979323846

/-- C++ `static_cast<int>` on a double: truncation toward zero. -/
def truncInt (x : ℝ) : ℤ := if x < 0 then ⌈x⌉ else ⌊x⌋

/-- `AeroParams` (VehicleParams.h). -/
structure AeroParams where
  Cl : ℝ
  Cd : ℝ
  frontal_area : ℝ
  air_density : ℝ

/-- `TireParams` (VehicleParams.h). -/
structure TireParams where
  mu_x : ℝ
  mu_y : ℝ
  load_sensitivity : ℝ
  tire_radius : ℝ

/-- `PowertrainParams` (VehicleParams.h); the `std::map` torque curve is a
key-sorted association list. -/
structure PowertrainParams where
  engine_torque_curve : List (ℝ × ℝ)
  gear_ratios : List ℝ
  final_drive_ratio : ℝ
  drivetrain_efficiency : ℝ
  max_rpm : ℝ
  min_rpm : ℝ
  shift_time : ℝ

/-- `MassParams` (VehicleParams.h). -/
structure MassParams where
  mass : ℝ
  cog_height : ℝ
  wheelbase : ℝ
  weight_distribution : ℝ

/-- `BrakeParams` (VehicleParams.h). -/
structure BrakeParams where
  max_brake_force : ℝ
  brake_bias : ℝ

/-- `VehicleParams` (VehicleParams.h). -/
structure VehicleParams where
  mass : MassParams
  aero : AeroParams
  tire : TireParams
  powertrain : PowertrainParams
  brake : BrakeParams

/-- `VehicleParams::validate` (VehicleParams.cpp): conjunction of all the
range checks, in source order. -/
def VehicleParams.validate (p : VehicleParams) : Prop :=
  0 < p.mass.mass ∧ 0 ≤ p.mass.cog_height ∧ 0 < p.mass.wheelbase ∧
  0 ≤ p.mass.weight_distribution ∧ p.mass.weight_distribution ≤ 1 ∧
  0 < p.aero.frontal_area ∧ 0 < p.aero.air_density ∧
  0 < p.tire.mu_x ∧ 0 < p.tire.mu_y ∧ 0 < p.tire.tire_radius ∧
  0 ≤ p.tire.load_sensitivity ∧ p.tire.load_sensitivity ≤ 1 ∧
  p.powertrain.engine_torque_curve ≠ [] ∧ p.powertrain.gear_ratios ≠ [] ∧
  0 < p.powertrain.final_drive_ratio ∧
  0 < p.powertrain.drivetrain_efficiency ∧ p.powertrain.drivetrain_efficiency ≤ 1 ∧
  0 < p.brake.max_brake_force ∧
  0 ≤ p.brake.brake_bias ∧ p.brake.brake_bias ≤ 1

/-! ## AerodynamicsModel (AerodynamicsModel.cpp / .h) -/

/-- `AerodynamicsModel::getAeroCoefficient`: `0.5 × ρ × A`. -/
def AeroParams.getAeroCoefficient (p : AeroParams) : ℝ :=
  0.5 * p.air_density * p.frontal_area

/-- `AerodynamicsModel::getDragForce`: `0.5 × ρ × A × Cd × v²`. -/
def AeroParams.getDragForce (p : AeroParams) (v : ℝ) : ℝ :=
  p.getAeroCoefficient * p.Cd * (v * v)

/-- `AerodynamicsModel::getDownforce`: `−0.5 × ρ × A × Cl × v²`. -/
def AeroParams.getDownforce (p : AeroParams) (v : ℝ) : ℝ :=
  -p.getAeroCoefficient * p.Cl * (v * v)

/-- `AerodynamicsModel::getTotalVerticalLoad`: weight plus downforce. -/
def AeroParams.getTotalVerticalLoad (p : AeroParams) (v mass g : ℝ) : ℝ :=
  mass * g + p.getDownforce v

/-! ## TireModel (TireModel.cpp) -/

/-- `TireModel::applyLoadSensitivity`:
`μ_eff = μ_base × (Fz / 2000)^(load_sensitivity − 1)`, 0 when `Fz ≤ 0`. -/
def TireParams.applyLoadSensitivity (p : TireParams) (Fz base_mu : ℝ) : ℝ :=
  if Fz ≤ 0 then 0
  else base_mu * Real.rpow (Fz / 2000) (p.load_sensitivity - 1)

/-- `TireModel::getEffectiveMu`. -/
def TireParams.getEffectiveMu (p : TireParams) (Fz base_mu : ℝ) : ℝ :=
  p.applyLoadSensitivity Fz base_mu

/-- `TireModel::getMaxTotalForce`: averaged μ with load sensitivity, times `Fz`. -/
def TireParams.getMaxTotalForce (p : TireParams) (Fz : ℝ) : ℝ :=
  p.getEffectiveMu Fz ((p.mu_x + p.mu_y) / 2) * Fz

/-- `TireModel::getAvailableLongitudinalForce`: friction-circle remainder. -/
def TireParams.getAvailableLongitudinalForce (p : TireParams) (Fz Fy_current : ℝ) : ℝ :=
  let F_max := p.getMaxTotalForce Fz
  if F_max * F_max ≤ Fy_current * Fy_current then 0
  else Real.sqrt (F_max * F_max - Fy_current * Fy_current)

/-- `TireModel::getMaxLongitudinalForce`. -/
def TireParams.getMaxLongitudinalForce (p : TireParams) (Fz : ℝ) : ℝ :=
  p.getEffectiveMu Fz p.mu_x * Fz

/-- `TireModel::getMaxLateralForce`. -/
def TireParams.getMaxLateralForce (p : TireParams) (Fz : ℝ) : ℝ :=
  p.getEffectiveMu Fz p.mu_y * Fz

/-! ## PowertrainParams::getTorqueAt (VehicleParams.cpp) -/

/-- The `upper_bound`-and-interpolate step of `PowertrainParams::getTorqueAt`:
scan for the first entry with key above `rpm`, linearly interpolating from the
previous entry. -/
def torqueScan (rpm : ℝ) : (ℝ × ℝ) → List (ℝ × ℝ) → ℝ
  | (_, t1), [] => t1
  | (r1, t1), (r2, t2) :: rest =>
    if rpm < r2 then t1 + (rpm - r1) / (r2 - r1) * (t2 - t1)
    else torqueScan rpm (r2, t2) rest

/-- `PowertrainParams::getTorqueAt` (VehicleParams.cpp): clamp rpm at 0,
clamp-to-endpoint outside the table, otherwise linear interpolation. -/
def PowertrainParams.getTorqueAt (p : PowertrainParams) (rpm : ℝ) : ℝ :=
  match p.engine_torque_curve with
  | [] => 0
  | (r0, t0) :: rest =>
    let rpm' := max 0 rpm
    let lastEntry := rest.getLastD (r0, t0)
    if rpm' ≤ r0 then t0
    else if lastEntry.1 ≤ rpm' then lastEntry.2
    else torqueScan rpm' (r0, t0) rest

/-! ## PowertrainModel (PowertrainModel.cpp) -/

/-- `PowertrainModel`: powertrain parameters plus the tire radius. -/
structure PowertrainModel where
  params : PowertrainParams
  tire_radius : ℝ

/-- `PowertrainModel::isValidGear`: `1 ≤ gear ≤ #gears`. -/
def PowertrainModel.isValidGear (m : PowertrainModel) (gear : ℤ) : Prop :=
  1 ≤ gear ∧ gear ≤ (m.params.gear_ratios.length : ℤ)

instance (m : PowertrainModel) (gear : ℤ) : Decidable (m.isValidGear gear) :=
  inferInstanceAs (Decidable (_ ∧ _))

/-- `PowertrainModel::getTotalGearRatio`: `gear_ratios[g−1] × final_drive`,
0 on an invalid gear. -/
def PowertrainModel.getTotalGearRatio (m : PowertrainModel) (gear : ℤ) : ℝ :=
  if m.isValidGear gear then
    m.params.gear_ratios.getD (gear - 1).toNat 0 * m.params.final_drive_ratio
  else 0

/-- `PowertrainModel::getRPM`: `(v / r_t) × R_total(g) × 60 / (2π)`,
0 on an invalid gear. -/
def PowertrainModel.getRPM (m : PowertrainModel) (v : ℝ) (gear : ℤ) : ℝ :=
  if m.isValidGear gear then
    v / m.tire_radius * m.getTotalGearRatio gear * 60 / (2 * PI)
  else 0

/-- `PowertrainModel::getEngineTorque`. -/
def PowertrainModel.getEngineTorque (m : PowertrainModel) (rpm : ℝ) : ℝ :=
  m.params.getTorqueAt rpm

/-- `PowertrainModel::getWheelForce` (PowertrainModel.cpp lines 33–53). -/
def PowertrainModel.getWheelForce (m : PowertrainModel) (v : ℝ) (gear : ℤ) : ℝ :=
  if ¬m.isValidGear gear ∨ v ≤ 0 then 0
  else
    let rpm := m.getRPM v gear
    if rpm < m.params.min_rpm ∨ m.params.max_rpm < rpm then 0
    else
      let engine_torque := m.getEngineTorque rpm
      let total_ratio := m.getTotalGearRatio gear
      let wheel_torque := engine_torque * total_ratio * m.params.drivetrain_efficiency
      wheel_torque / m.tire_radius

/-- `PowertrainModel::getMaxWheelForce` (PowertrainModel.cpp lines 55–71):
first-gear force at 0.01 m/s when `v ≤ 0`, otherwise the running maximum
(seeded with 0) of the per-gear wheel forces. -/
def PowertrainModel.getMaxWheelForce (m : PowertrainModel) (v : ℝ) : ℝ :=
  if v ≤ 0 then m.getWheelForce 0.01 1
  else
    (List.range m.params.gear_ratios.length).foldl
      (fun (acc : ℝ) (i : ℕ) => max acc (m.getWheelForce v ((i : ℤ) + 1))) 0

/-! ## GGVGenerator (GGVGenerator.cpp) -/

/-- `GGVPoint` (GGVGenerator.h). -/
structure GGVPoint where
  velocity : ℝ
  ay_lateral : ℝ
  ax_max_accel : ℝ
  ax_max_brake : ℝ

/-- The `GGVPoint` default constructor: all zeros. -/
def GGVPoint.zero : GGVPoint := ⟨0, 0, 0, 0⟩

/-- `GGVGenerator::calculateMaxAcceleration` (GGVGenerator.cpp lines 47–80). -/
def GGVGenerator.calculateMaxAcceleration (veh : VehicleParams) (v ay : ℝ) : ℝ :=
  let g := GRAVITY
  let m := veh.mass.mass
  let v := if v < 0.1 then 0.1 else v
  let Fz_total := veh.aero.getTotalVerticalLoad v m g
  let Fy_required := m * ay
  let Fx_tire_max := veh.tire.getAvailableLongitudinalForce Fz_total Fy_required
  let Fx_engine := PowertrainModel.getMaxWheelForce ⟨veh.powertrain, veh.tire.tire_radius⟩ v
  let F_drag := veh.aero.getDragForce v
  let Fx_available := min Fx_engine Fx_tire_max
  let Fx_net := Fx_available - F_drag
  let ax := Fx_net / m
  max 0 (min ax 50)

/-- `GGVGenerator::calculateMaxBraking` (GGVGenerator.cpp lines 82–113). -/
def GGVGenerator.calculateMaxBraking (veh : VehicleParams) (v ay : ℝ) : ℝ :=
  let g := GRAVITY
  let m := veh.mass.mass
  let v := if v < 0.1 then 0.1 else v
  let Fz_total := veh.aero.getTotalVerticalLoad v m g
  let Fy_required := m * ay
  let Fx_tire_max := veh.tire.getAvailableLongitudinalForce Fz_total Fy_required
  let Fx_brake_system := veh.brake.max_brake_force
  let Fx_brake := min Fx_tire_max Fx_brake_system
  let F_drag := veh.aero.getDragForce v
  let Fx_net := -(Fx_brake + F_drag)
  let ax := Fx_net / m
  max ax (-60)

/-- The state of a `GGVGenerator` object after construction / `generate()`. -/
structure GGVState where
  vehicle : VehicleParams
  generated : Bool
  ggv_points : List GGVPoint
  v_min : ℝ
  v_max : ℝ
  v_step : ℝ
  ay_min : ℝ
  ay_max : ℝ
  ay_step : ℝ

/-- Number of iterations of a C++ loop `for (x = start; x <= stop; x += step)`
in exact real arithmetic (0 when the loop would not run or not terminate). -/
def gridCount (start stop step : ℝ) : ℕ :=
  if start ≤ stop ∧ 0 < step then (⌊(stop - start) / step⌋).toNat + 1 else 0

/-- `GGVGenerator::generate` (GGVGenerator.cpp lines 20–45): the row-major
grid of `GGVPoint`s over `v ∈ [v_min, v_max]` step `v_step` by
`ay ∈ [0, ay_max]` step `ay_step`. -/
def GGVGenerator.generate (veh : VehicleParams)
    (v_min v_max v_step ay_max ay_step : ℝ) : GGVState :=
  let nv := gridCount v_min v_max v_step
  let nay := gridCount 0 ay_max ay_step
  { vehicle := veh
    generated := true
    ggv_points :=
      (List.range nv).flatMap fun i =>
        (List.range nay).map fun j =>
          let v := v_min + i * v_step
          let ay := 0 + j * ay_step
          { velocity := v
            ay_lateral := ay
            ax_max_accel := GGVGenerator.calculateMaxAcceleration veh v ay
            ax_max_brake := GGVGenerator.calculateMaxBraking veh v ay }
    v_min := v_min, v_max := v_max, v_step := v_step
    ay_min := 0, ay_max := ay_max, ay_step := ay_step }

/-- `GGVGenerator::interpolateAcceleration` (GGVGenerator.cpp lines 131–167):
bilinear interpolation on the stored grid, out-of-range nodes read as 0. -/
def GGVState.interpolateAcceleration (st : GGVState) (v ay : ℝ) : ℝ :=
  let v := max st.v_min (min st.v_max v)
  let ay := max 0 (min st.ay_max ay)
  let v_idx_f := (v - st.v_min) / st.v_step
  let ay_idx_f := ay / st.ay_step
  let v_idx := truncInt v_idx_f
  let ay_idx := truncInt ay_idx_f
  let v_t := v_idx_f - (v_idx : ℝ)
  let ay_t := ay_idx_f - (ay_idx : ℝ)
  let num_ay_points := truncInt ((st.ay_max - st.ay_min) / st.ay_step) + 1
  let getValue : ℤ → ℤ → ℝ := fun vi ayi =>
    let index := vi * num_ay_points + ayi
    if 0 ≤ index ∧ index < (st.ggv_points.length : ℤ) then
      (st.ggv_points.getD index.toNat GGVPoint.zero).ax_max_accel
    else 0
  let v00 := getValue v_idx ay_idx
  let v10 := getValue (v_idx + 1) ay_idx
  let v01 := getValue v_idx (ay_idx + 1)
  let v11 := getValue (v_idx + 1) (ay_idx + 1)
  let v0 := v00 * (1 - v_t) + v10 * v_t
  let v1 := v01 * (1 - v_t) + v11 * v_t
  v0 * (1 - ay_t) + v1 * ay_t

/-- `GGVGenerator::interpolateBraking` (GGVGenerator.cpp lines 169–202). -/
def GGVState.interpolateBraking (st : GGVState) (v ay : ℝ) : ℝ :=
  let v := max st.v_min (min st.v_max v)
  let ay := max 0 (min st.ay_max ay)
  let v_idx_f := (v - st.v_min) / st.v_step
  let ay_idx_f := ay / st.ay_step
  let v_idx := truncInt v_idx_f
  let ay_idx := truncInt ay_idx_f
  let v_t := v_idx_f - (v_idx : ℝ)
  let ay_t := ay_idx_f - (ay_idx : ℝ)
  let num_ay_points := truncInt ((st.ay_max - st.ay_min) / st.ay_step) + 1
  let getValue : ℤ → ℤ → ℝ := fun vi ayi =>
    let index := vi * num_ay_points + ayi
    if 0 ≤ index ∧ index < (st.ggv_points.length : ℤ) then
      (st.ggv_points.getD index.toNat GGVPoint.zero).ax_max_brake
    else 0
  let v00 := getValue v_idx ay_idx
  let v10 := getValue (v_idx + 1) ay_idx
  let v01 := getValue v_idx (ay_idx + 1)
  let v11 := getValue (v_idx + 1) (ay_idx + 1)
  let v0 := v00 * (1 - v_t) + v10 * v_t
  let v1 := v01 * (1 - v_t) + v11 * v_t
  v0 * (1 - ay_t) + v1 * ay_t

/-- `GGVGenerator::getMaxAcceleration`: throws (`none`) when the diagram has
not been generated. -/
def GGVState.getMaxAcceleration (st : GGVState) (v ay : ℝ) : Option ℝ :=
  if st.generated then some (st.interpolateAcceleration v |ay|) else none

/-- `GGVGenerator::getMaxBraking`: throws (`none`) when the diagram has not
been generated. -/
def GGVState.getMaxBraking (st : GGVState) (v ay : ℝ) : Option ℝ :=
  if st.generated then some (st.interpolateBraking v |ay|) else none

/-! ## TrackData (TrackData.cpp) -/

/-- `TrackPoint` (TrackData.h). -/
structure TrackPoint where
  x : ℝ
  y : ℝ
  z : ℝ
  w_tr_left : ℝ
  w_tr_right : ℝ
  banking : ℝ
  s : ℝ
  psi : ℝ
  kappa : ℝ
  ds : ℝ

/-- The `TrackPoint` default constructor: all zeros. -/
def TrackPoint.zero : TrackPoint := ⟨0, 0, 0, 0, 0, 0, 0, 0, 0, 0⟩

/-- 3-D Euclidean distance between two track points,
`√(dx² + dy² + dz²)`. -/
def dist3 (p q : TrackPoint) : ℝ :=
  Real.sqrt ((q.x - p.x) * (q.x - p.x) + (q.y - p.y) * (q.y - p.y) +
    (q.z - p.z) * (q.z - p.z))

/-- Cumulative arc length of the point list: `s[0] = 0`,
`s[i+1] = s[i] + ‖p[i+1] − p[i]‖₃` (TrackData.cpp lines 39–50). -/
def arcS (pts : List TrackPoint) : ℕ → ℝ
  | 0 => 0
  | i + 1 => arcS pts i + dist3 (pts.getD i TrackPoint.zero) (pts.getD (i + 1) TrackPoint.zero)

/-- `TrackData::calculateArcLength` (TrackData.cpp lines 39–59): returns the
points with `s`/`ds` filled in, and the total closed length. -/
def calculateArcLength (pts : List TrackPoint) : List TrackPoint × ℝ :=
  let N := pts.length
  let newPts := (List.range N).map fun i =>
    let p := pts.getD i TrackPoint.zero
    { p with
      s := arcS pts i
      ds := if i + 1 < N then dist3 p (pts.getD (i + 1) TrackPoint.zero)
            else dist3 (pts.getD (N - 1) TrackPoint.zero) (pts.getD 0 TrackPoint.zero) }
  let total :=
    if N = 0 then 0
    else arcS pts (N - 1) + dist3 (pts.getD (N - 1) TrackPoint.zero) (pts.getD 0 TrackPoint.zero)
  (newPts, total)

/-- `atan2(y, x)` as the complex argument of `x + y·i`. -/
def atan2 (y x : ℝ) : ℝ := Complex.arg ⟨x, y⟩

/-- `TrackData::calculateHeading` (TrackData.cpp lines 61–74): central
difference with cyclic wrap on the planar coordinates. -/
def calculateHeading (pts : List TrackPoint) : List TrackPoint :=
  let n := pts.length
  (List.range n).map fun i =>
    let p := pts.getD i TrackPoint.zero
    let i_prev := if i = 0 then n - 1 else i - 1
    let i_next := if i = n - 1 then 0 else i + 1
    let dx := (pts.getD i_next TrackPoint.zero).x - (pts.getD i_prev TrackPoint.zero).x
    let dy := (pts.getD i_next TrackPoint.zero).y - (pts.getD i_prev TrackPoint.zero).y
    { p with psi := atan2 dy dx }

/-- `TrackData::normalizeAngle` (TrackData.cpp lines 97–102): the two
`while` loops bring the angle into `[−π, π]`; each loop's iteration count is
the corresponding ceiling. -/
def normalizeAngle (angle : ℝ) : ℝ :=
  if PI < angle then angle - 2 * PI * (⌈(angle - PI) / (2 * PI)⌉ : ℤ)
  else if angle < -PI then angle + 2 * PI * (⌈(-PI - angle) / (2 * PI)⌉ : ℤ)
  else angle

/-- `TrackData::calculateCurvature` (TrackData.cpp lines 76–95):
`κ = Δψ/Δs` with cyclic wrap and a `10⁻⁶` guard. -/
def calculateCurvature (pts : List TrackPoint) (total : ℝ) : List TrackPoint :=
  let n := pts.length
  (List.range n).map fun i =>
    let p := pts.getD i TrackPoint.zero
    let i_prev := if i = 0 then n - 1 else i - 1
    let i_next := if i = n - 1 then 0 else i + 1
    let dpsi := normalizeAngle
      ((pts.getD i_next TrackPoint.zero).psi - (pts.getD i_prev TrackPoint.zero).psi)
    let ds0 := (pts.getD i_next TrackPoint.zero).s - (pts.getD i_prev TrackPoint.zero).s
    let ds1 := if ds0 < 0 then ds0 + total else ds0
    { p with kappa := if (1e-6 : ℝ) < ds1 then dpsi / ds1 else 0 }

/-- `TrackData` (TrackData.h): point list, total length, preprocessed flag. -/
structure TrackData where
  points : List TrackPoint
  total_length : ℝ
  preprocessed : Bool

/-- The successful body of `TrackData::preprocess`: arc length, heading,
curvature, then set the flag. -/
def TrackData.doPreprocess (t : TrackData) : TrackData :=
  let ar := calculateArcLength t.points
  let pts2 := calculateHeading ar.1
  let pts3 := calculateCurvature pts2 ar.2
  { points := pts3, total_length := ar.2, preprocessed := true }

/-- `TrackData::preprocess` (TrackData.cpp lines 27–37): throws (`none`) on
fewer than 3 points. -/
def TrackData.preprocess (t : TrackData) : Option TrackData :=
  if t.points.length < 3 then none else some t.doPreprocess

/-- `TrackData::getPoint` (TrackData.cpp lines 104–109): throws (`none`) out
of range. -/
def TrackData.getPoint (t : TrackData) (i : ℕ) : Option TrackPoint :=
  t.points.get? i

/-- The arc-length normalization `while (s < 0) s += L; while (s >= L) s -= L`
in exact arithmetic; for `L > 0` this is reduction modulo `L`
(for `L ≤ 0` the C++ loops would not terminate). -/
def floorMod (s L : ℝ) : ℝ := if 0 < L then s - L * (⌊s / L⌋ : ℤ) else s

/-- `TrackData::findIndexAt`'s binary-search loop (TrackData.cpp lines
183–197). -/
def bsearchS (pts : List TrackPoint) (s : ℝ) (left right : ℕ) : ℕ :=
  if h : left < right then
    let mid := left + (right - left) / 2
    if (pts.getD mid TrackPoint.zero).s ≤ s then bsearchS pts s (mid + 1) right
    else bsearchS pts s left mid
  else left
termination_by right - left
decreasing_by
· have h2 : (right - left) / 2 < right - left := Nat.div_lt_self (by omega) (by omega)
  omega
· have h2 : (right - left) / 2 < right - left := Nat.div_lt_self (by omega) (by omega)
  omega

/-- `TrackData::findIndexAt` (TrackData.cpp lines 183–203). -/
def TrackData.findIndexAt (t : TrackData) (s : ℝ) : ℕ :=
  let left := bsearchS t.points s 0 (t.points.length - 1)
  if 0 < left ∧ s < (t.points.getD left TrackPoint.zero).s then left - 1 else left

/-- The body of `TrackData::interpolateAt` after the preprocessed check
(TrackData.cpp lines 111–148). -/
def TrackData.interpolateCore (t : TrackData) (s : ℝ) : TrackPoint :=
  let s' := floorMod s t.total_length
  let i := t.findIndexAt s'
  let i_next := (i + 1) % t.points.length
  let p1 := t.points.getD i TrackPoint.zero
  let p2 := t.points.getD i_next TrackPoint.zero
  let tRaw := if (1e-6 : ℝ) < p1.ds then (s' - p1.s) / p1.ds else 0
  let tc := max 0 (min 1 tRaw)
  let dpsi := normalizeAngle (p2.psi - p1.psi)
  { x := p1.x + tc * (p2.x - p1.x)
    y := p1.y + tc * (p2.y - p1.y)
    z := p1.z + tc * (p2.z - p1.z)
    w_tr_left := p1.w_tr_left + tc * (p2.w_tr_left - p1.w_tr_left)
    w_tr_right := p1.w_tr_right + tc * (p2.w_tr_right - p1.w_tr_right)
    banking := p1.banking + tc * (p2.banking - p1.banking)
    s := s'
    psi := normalizeAngle (p1.psi + tc * dpsi)
    kappa := p1.kappa + tc * (p2.kappa - p1.kappa)
    ds := p1.ds }

/-- `TrackData::interpolateAt` (TrackData.cpp lines 111–148): throws (`none`)
when the track is not preprocessed. -/
def TrackData.interpolateAt (t : TrackData) (s : ℝ) : Option TrackPoint :=
  if t.preprocessed then some (t.interpolateCore s) else none

/-- `TrackData::getCurvatureAt` (TrackData.cpp lines 150–169): throws
(`none`) when the track is not preprocessed. -/
def TrackData.getCurvatureAt (t : TrackData) (s : ℝ) : Option ℝ :=
  if t.preprocessed then
    some (
      let s' := floorMod s t.total_length
      let i := t.findIndexAt s'
      let i_next := (i + 1) % t.points.length
      let p1 := t.points.getD i TrackPoint.zero
      let p2 := t.points.getD i_next TrackPoint.zero
      let tRaw := if (1e-6 : ℝ) < p1.ds then (s' - p1.s) / p1.ds else 0
      let tc := max 0 (min 1 tRaw)
      p1.kappa + tc * (p2.kappa - p1.kappa))
  else none

/-- `TrackData::isWithinBounds` (TrackData.cpp lines 171–181): throws
(`none`) when the track is not preprocessed. -/
def TrackData.isWithinBounds (t : TrackData) (s n : ℝ) : Option Bool :=
  if t.preprocessed then
    some (
      let point := t.interpolateCore s
      if -point.w_tr_right ≤ n ∧ n ≤ point.w_tr_left then true else false)
  else none

/-! ## SimulationState / LapResult (SimulationState.cpp) -/

/-- `SimulationState` (SimulationState.h). -/
structure SimulationState where
  s : ℝ
  n : ℝ
  x : ℝ
  y : ℝ
  z : ℝ
  v : ℝ
  v_kmh : ℝ
  ax : ℝ
  ay : ℝ
  az : ℝ
  gx : ℝ
  gy : ℝ
  gz : ℝ
  g_total : ℝ
  throttle : ℝ
  brake : ℝ
  steering_angle : ℝ
  gear : ℤ
  rpm : ℝ
  engine_torque : ℝ
  wheel_force : ℝ
  drag_force : ℝ
  downforce : ℝ
  tire_force_x : ℝ
  tire_force_y : ℝ
  vertical_load : ℝ
  curvature : ℝ
  radius : ℝ
  banking_angle : ℝ
  timestamp : ℝ

/-- `SimulationState::reset` / the default-constructed state. -/
def SimulationState.reset : SimulationState :=
  { s := 0, n := 0, x := 0, y := 0, z := 0, v := 0, v_kmh := 0,
    ax := 0, ay := 0, az := 0, gx := 0, gy := 0, gz := 0, g_total := 0,
    throttle := 0, brake := 0, steering_angle := 0, gear := 1, rpm := 0,
    engine_torque := 0, wheel_force := 0, drag_force := 0, downforce := 0,
    tire_force_x := 0, tire_force_y := 0, vertical_load := 0,
    curvature := 0, radius := 1e9, banking_angle := 0, timestamp := 0 }

/-- `LapResult` (SimulationState.h): the ordered state sequence and the lap
time. -/
structure LapResult where
  states : List SimulationState
  lap_time : ℝ

open Classical in
/-- `LapResult::getAverageSpeed` (SimulationState.cpp lines 94–106). -/
def LapResult.getAverageSpeed (r : LapResult) : ℝ :=
  if r.states = [] ∨ r.lap_time ≤ 0 then 0
  else if r.states ≠ [] then (r.states.getLastD SimulationState.reset).s / r.lap_time
  else 0

/-! ## QuasiSteadyStateSolver (QuasiSteadyStateSolver.cpp) -/

namespace QSS

/-- `QuasiSteadyStateSolver::solveCorneringVelocity`
(QuasiSteadyStateSolver.cpp lines 144–183). -/
def solveCorneringVelocity (veh : VehicleParams) (kappa : ℝ) : ℝ :=
  let g := GRAVITY
  let m := veh.mass.mass
  let mu := veh.tire.mu_y
  let rho := veh.aero.air_density
  let Cl := veh.aero.Cl
  let A := veh.aero.frontal_area
  if |kappa| < 0.002 then 110
  else
    let abs_kappa := |kappa|
    let aero_factor := 0.5 * mu * rho * (-Cl) * A
    let denominator := m * abs_kappa - aero_factor
    let numerator := mu * m * g
    if denominator ≤ 0 then 100
    else
      let v_squared := numerator / denominator
      if v_squared < 0 then 0
      else Real.sqrt v_squared

/-- `QuasiSteadyStateSolver::calculateCorneringLimit`
(QuasiSteadyStateSolver.cpp lines 120–142): `v_corner[i]` from `κ[i]` for
every point. -/
def calculateCorneringLimit (track : TrackData) (veh : VehicleParams) :
    Option (List ℝ) :=
  (List.range track.points.length).mapM fun i =>
    (track.getPoint i).map fun pt => solveCorneringVelocity veh pt.kappa

/-- The body of the forward-integration loop
(QuasiSteadyStateSolver.cpp lines 189–210), iterated `fuel` times starting at
index `i`. -/
def forwardAux (track : TrackData) (ggv : GGVState) (vc : List ℝ) :
    ℕ → ℕ → List ℝ → Option (List ℝ)
  | 0, _, va => some va
  | fuel + 1, i, va => do
    let v_start := max (va.getD i 0) 1
    let point ← track.getPoint i
    let ay := v_start * v_start * |point.kappa|
    let ax0 ← ggv.getMaxAcceleration v_start ay
    let ax_max := min ax0 50
    let v_squared_end := v_start * v_start + 2 * ax_max * point.ds
    let v_end := if 0 < v_squared_end then Real.sqrt v_squared_end else v_start
    let vnext := max (min v_end (vc.getD (i + 1) 0)) 1
    forwardAux track ggv vc fuel (i + 1) (va.set (i + 1) vnext)

/-- `QuasiSteadyStateSolver::forwardIntegration`
(QuasiSteadyStateSolver.cpp lines 185–223): the sweep over `i = 0 … N−2`
followed by the loop-closure step. -/
def forwardIntegration (track : TrackData) (ggv : GGVState) (vc va : List ℝ) :
    Option (List ℝ) := do
  let n := track.points.length
  let va1 ← forwardAux track ggv vc (n - 1) 0 va
  let lastIdx := n - 1
  let v_start := va1.getD lastIdx 0
  let point ← track.getPoint lastIdx
  let ay := v_start * v_start * |point.kappa|
  let ax_max ← ggv.getMaxAcceleration v_start ay
  let v_squared_end := v_start * v_start + 2 * ax_max * point.ds
  let v_end := if 0 < v_squared_end then Real.sqrt v_squared_end else 0
  some (va1.set 0 (min (va1.getD 0 0) (min v_end (vc.getD 0 0))))

/-- The body of the backward-integration loop
(QuasiSteadyStateSolver.cpp lines 229–254), iterated `fuel` times starting at
index `i` and walking down. -/
def backwardAux (track : TrackData) (ggv : GGVState) (vc : List ℝ) :
    ℕ → ℕ → List ℝ → Option (List ℝ)
  | 0, _, vb => some vb
  | fuel + 1, i, vb => do
    let v_start := max (vb.getD i 0) 1
    let i_prev := i - 1
    let point_prev ← track.getPoint i_prev
    let point_i ← track.getPoint i
    let ay := v_start * v_start * |point_i.kappa|
    let ax0 ← ggv.getMaxBraking v_start ay
    let ax_min := max ax0 (-60)
    let v_squared_prev := v_start * v_start - 2 * ax_min * point_prev.ds
    let v_prev := if 0 < v_squared_prev then Real.sqrt v_squared_prev else v_start
    let vnew := max (min v_prev (vc.getD i_prev 0)) 1
    backwardAux track ggv vc fuel i_prev (vb.set i_prev vnew)

/-- `QuasiSteadyStateSolver::backwardIntegration`
(QuasiSteadyStateSolver.cpp lines 225–267): the sweep over `i = N−1 … 1`
followed by the loop-closure step. -/
def backwardIntegration (track : TrackData) (ggv : GGVState) (vc vb : List ℝ) :
    Option (List ℝ) := do
  let n := track.points.length
  let vb1 ← backwardAux track ggv vc (n - 1) (n - 1) vb
  let v_start := vb1.getD 0 0
  let last_point ← track.getPoint (n - 1)
  let point0 ← track.getPoint 0
  let ay := v_start * v_start * |point0.kappa|
  let ax_min ← ggv.getMaxBraking v_start ay
  let v_squared_prev := v_start * v_start - 2 * ax_min * last_point.ds
  let v_prev := if 0 < v_squared_prev then Real.sqrt v_squared_prev else 0
  some (vb1.set (n - 1) (min (vb1.getD (n - 1) 0) (min v_prev (vc.getD (n - 1) 0))))

/-- `QuasiSteadyStateSolver::combineProfiles`
(QuasiSteadyStateSolver.cpp lines 269–273):
`v_optimal[i] = min(v_corner[i], v_accel[i], v_brake[i])`. -/
def combineProfiles (n : ℕ) (vc va vb : List ℝ) : List ℝ :=
  (List.range n).map fun i =>
    min (vc.getD i 0) (min (va.getD i 0) (vb.getD i 0))

/-- `QuasiSteadyStateSolver::calculateLapTime`
(QuasiSteadyStateSolver.cpp lines 275–288): `Σ ds[i] / v_optimal[i]` over the
points with positive `v_optimal[i]`. -/
def calculateLapTime (track : TrackData) (vopt : List ℝ) : Option ℝ :=
  (List.range track.points.length).foldlM
    (fun acc i => do
      let point ← track.getPoint i
      pure (if 0 < vopt.getD i 0 then acc + point.ds / vopt.getD i 0 else acc))
    0

/-- The iteration loop of `QuasiSteadyStateSolver::solve`
(QuasiSteadyStateSolver.cpp lines 81–108): forward pass, backward pass,
combine, lap time, convergence check. Returns the lap time, the number of
iterations used, and the converged flag. -/
def solveLoop (track : TrackData) (ggv : GGVState) (vc : List ℝ)
    (tolerance : ℝ) :
    ℕ → List ℝ → List ℝ → ℝ → ℝ → ℕ → Option (ℝ × ℕ × Bool)
  | 0, _, _, lap, _, iters => some (lap, iters, false)
  | fuel + 1, va, vb, _, prev, iters => do
    let va1 ← forwardIntegration track ggv vc va
    let vb1 ← backwardIntegration track ggv vc vb
    let vopt := combineProfiles track.points.length vc va1 vb1
    let lap1 ← calculateLapTime track vopt
    if |lap1 - prev| < tolerance then some (lap1, iters + 1, true)
    else solveLoop track ggv vc tolerance fuel va1 vb1 lap1 lap1 (iters + 1)

open Classical in
/-- `QuasiSteadyStateSolver::solve` (QuasiSteadyStateSolver.cpp lines
58–118), together with the constructor checks (lines 18–24) and
`initialize()` (lines 39–56): `none` models a thrown exception. -/
def solve (track : TrackData) (veh : VehicleParams)
    (max_iterations : ℕ) (tolerance : ℝ) : Option (ℝ × ℕ × Bool) :=
  if track.preprocessed = true ∧ veh.validate then do
    let ggv := GGVGenerator.generate veh 0 120 0.5 50 1
    let vc ← calculateCorneringLimit track veh
    let n := track.points.length
    let initial_speed : ℝ := 50
    let va0 := (List.range n).map fun i => min initial_speed (vc.getD i 0)
    let vb0 := (List.range n).map fun i => min initial_speed (vc.getD i 0)
    solveLoop track ggv vc tolerance max_iterations va0 vb0 0 1000000000 0
  else none

end QSS

end

/-! ## Theorems settling the claims -/

/-- **C1.** For every curvature value `kappa`, `solveCorneringVelocity kappa`
returns 110.0 when `|kappa| < 0.002`; otherwise, when the denominator
`m·|kappa| − 0.5·μ_y·ρ·(−Cl)·A` is ≤ 0 it returns 100.0; otherwise it returns
`√(μ_y·m·g / (m·|kappa| − 0.5·μ_y·ρ·(−Cl)·A))` (where `√` of a negative
argument is 0, matching the source's explicit `v² < 0` guard). -/
theorem solveCorneringVelocity_spec (veh : VehicleParams) (kappa : ℝ) :
    QSS.solveCorneringVelocity veh kappa =
      if |kappa| < 0.002 then 110
      else if veh.mass.mass * |kappa| -
          0.5 * veh.tire.mu_y * veh.aero.air_density * (-veh.aero.Cl) *
            veh.aero.frontal_area ≤ 0 then 100
      else Real.sqrt (veh.tire.mu_y * veh.mass.mass * GRAVITY /
          (veh.mass.mass * |kappa| -
            0.5 * veh.tire.mu_y * veh.aero.air_density * (-veh.aero.Cl) *
              veh.aero.frontal_area)) := by
  unfold QSS.solveCorneringVelocity
  dsimp only
  split_ifs with h1 h2 h3
  · rfl
  · rfl
  · exact (Real.sqrt_eq_zero'.mpr (le_of_lt h3)).symm
  · rfl

/-- Reading a `List.range`-mapped list at an in-range index. -/
theorem getD_range_map {α : Type} (f : ℕ → α) (n i : ℕ) (d : α) (h : i < n) :
    ((List.range n).map f).getD i d = f i := by
  rw [List.getD_eq_getElem?_getD, List.getElem?_map, List.getElem?_range h]
  rfl

/-- **C3.** After `combineProfiles`, for every index `i < N`,
`v_optimal[i] = min(v_corner[i], v_accel[i], v_brake[i])`; in particular
`v_optimal[i]` is ≤ each of `v_corner[i]`, `v_accel[i]`, `v_brake[i]`. -/
theorem combineProfiles_spec (n : ℕ) (vc va vb : List ℝ) (i : ℕ) (h : i < n) :
    (QSS.combineProfiles n vc va vb).getD i 0 =
      min (vc.getD i 0) (min (va.getD i 0) (vb.getD i 0)) ∧
    (QSS.combineProfiles n vc va vb).getD i 0 ≤ vc.getD i 0 ∧
    (QSS.combineProfiles n vc va vb).getD i 0 ≤ va.getD i 0 ∧
    (QSS.combineProfiles n vc va vb).getD i 0 ≤ vb.getD i 0 := by
  have key : (QSS.combineProfiles n vc va vb).getD i 0 =
      min (vc.getD i 0) (min (va.getD i 0) (vb.getD i 0)) :=
    getD_range_map _ n i 0 h
  refine ⟨key, ?_, ?_, ?_⟩ <;> rw [key]
  · exact min_le_left _ _
  · exact le_trans (min_le_right _ _) (min_le_left _ _)
  · exact le_trans (min_le_right _ _) (min_le_right _ _)

/-- Witness for C3 at a concrete input. -/
theorem combineProfiles_spec_witness :
    (0 : ℕ) < 1 ∧
    ((QSS.combineProfiles 1 [2] [3] [1]).getD 0 0 =
      min (([2] : List ℝ).getD 0 0)
        (min (([3] : List ℝ).getD 0 0) (([1] : List ℝ).getD 0 0)) ∧
    (QSS.combineProfiles 1 [2] [3] [1]).getD 0 0 ≤ ([2] : List ℝ).getD 0 0 ∧
    (QSS.combineProfiles 1 [2] [3] [1]).getD 0 0 ≤ ([3] : List ℝ).getD 0 0 ∧
    (QSS.combineProfiles 1 [2] [3] [1]).getD 0 0 ≤ ([1] : List ℝ).getD 0 0) :=
  ⟨by norm_num, combineProfiles_spec 1 [2] [3] [1] 0 (by norm_num)⟩

/-- **C6.** For every velocity `v` and gear `g`, `getWheelForce v g` returns 0
if `g` is not in `[1, #gears]` or `v ≤ 0`; otherwise, with `rpm` computed from
`v` through the gearing, it returns 0 if `rpm < min_rpm` or `rpm > max_rpm`,
and otherwise returns
`getTorqueAt(rpm) · gear_ratio[g−1] · final_drive · efficiency / tire_radius`. -/
theorem getWheelForce_spec (m : PowertrainModel) (v : ℝ) (g : ℤ) :
    m.getWheelForce v g =
      if ¬(1 ≤ g ∧ g ≤ (m.params.gear_ratios.length : ℤ)) ∨ v ≤ 0 then 0
      else if m.getRPM v g < m.params.min_rpm ∨ m.params.max_rpm < m.getRPM v g then 0
      else m.params.getTorqueAt (m.getRPM v g) *
        (m.params.gear_ratios.getD (g - 1).toNat 0 * m.params.final_drive_ratio) *
        m.params.drivetrain_efficiency / m.tire_radius := by
  by_cases hv : v ≤ 0
  · unfold PowertrainModel.getWheelForce
    rw [if_pos (Or.inr hv), if_pos (Or.inr hv)]
  · by_cases hval : m.isValidGear g
    · have hval' : 1 ≤ g ∧ g ≤ (m.params.gear_ratios.length : ℤ) := hval
      unfold PowertrainModel.getWheelForce
      have h1 : ¬(¬m.isValidGear g ∨ v ≤ 0) := by tauto
      have h2 : ¬(¬(1 ≤ g ∧ g ≤ (m.params.gear_ratios.length : ℤ)) ∨ v ≤ 0) := by tauto
      rw [if_neg h1, if_neg h2]
      dsimp only
      by_cases hrpm : m.getRPM v g < m.params.min_rpm ∨ m.params.max_rpm < m.getRPM v g
      · rw [if_pos hrpm, if_pos hrpm]
      · rw [if_neg hrpm, if_neg hrpm]
        unfold PowertrainModel.getEngineTorque PowertrainModel.getTotalGearRatio
        rw [if_pos hval]
    · have hval' : ¬(1 ≤ g ∧ g ≤ (m.params.gear_ratios.length : ℤ)) := hval
      unfold PowertrainModel.getWheelForce
      rw [if_pos (Or.inl hval), if_pos (Or.inl hval')]

/-- The friction-circle remainder is never negative: it is either 0 or a
square root. -/
theorem availableLongitudinalForce_nonneg (p : TireParams) (Fz Fy : ℝ) :
    0 ≤ p.getAvailableLongitudinalForce Fz Fy := by
  unfold TireParams.getAvailableLongitudinalForce
  dsimp only
  split_ifs
  · exact le_refl 0
  · exact Real.sqrt_nonneg _

/-- Drag force is nonnegative when `ρ, A, Cd ≥ 0`. -/
theorem getDragForce_nonneg (p : AeroParams) (v : ℝ)
    (hrho : 0 ≤ p.air_density) (hA : 0 ≤ p.frontal_area) (hCd : 0 ≤ p.Cd) :
    0 ≤ p.getDragForce v := by
  unfold AeroParams.getDragForce AeroParams.getAeroCoefficient
  have h1 : (0 : ℝ) ≤ 0.5 * p.air_density * p.frontal_area := by positivity
  exact mul_nonneg (mul_nonneg h1 hCd) (mul_self_nonneg v)

/-- **C4.** With the spec's data-model constraints on the vehicle
(`m > 0`, `ρ > 0`, `A > 0`, `Cd` and `F_brake_max` nonnegative), every GGV
grid point produced by `generate` satisfies `0 ≤ ax_max_accel ≤ 50` and
`−60 ≤ ax_max_brake ≤ 0`; indeed `calculateMaxAcceleration` always returns a
value in `[0, 50]` and `calculateMaxBraking` a value in `[−60, 0]`, for every
velocity `v` and lateral acceleration `ay`. -/
theorem ggv_envelope_bounds (veh : VehicleParams)
    (hm : 0 < veh.mass.mass) (hrho : 0 < veh.aero.air_density)
    (hA : 0 < veh.aero.frontal_area) (hCd : 0 ≤ veh.aero.Cd)
    (hbrake : 0 ≤ veh.brake.max_brake_force) :
    (∀ v_min v_max v_step ay_max ay_step : ℝ,
      ∀ p ∈ (GGVGenerator.generate veh v_min v_max v_step ay_max ay_step).ggv_points,
        (0 ≤ p.ax_max_accel ∧ p.ax_max_accel ≤ 50) ∧
        (-60 ≤ p.ax_max_brake ∧ p.ax_max_brake ≤ 0)) ∧
    (∀ v ay : ℝ,
      (0 ≤ GGVGenerator.calculateMaxAcceleration veh v ay ∧
        GGVGenerator.calculateMaxAcceleration veh v ay ≤ 50) ∧
      (-60 ≤ GGVGenerator.calculateMaxBraking veh v ay ∧
        GGVGenerator.calculateMaxBraking veh v ay ≤ 0)) := by
  have haccel : ∀ v ay : ℝ, 0 ≤ GGVGenerator.calculateMaxAcceleration veh v ay ∧
      GGVGenerator.calculateMaxAcceleration veh v ay ≤ 50 := by
    intro v ay
    unfold GGVGenerator.calculateMaxAcceleration
    dsimp only
    exact ⟨le_max_left _ _, max_le (by norm_num) (min_le_right _ _)⟩
  have hbrk : ∀ v ay : ℝ, -60 ≤ GGVGenerator.calculateMaxBraking veh v ay ∧
      GGVGenerator.calculateMaxBraking veh v ay ≤ 0 := by
    intro v ay
    unfold GGVGenerator.calculateMaxBraking
    dsimp only
    refine ⟨le_max_right _ _, max_le ?_ (by norm_num)⟩
    apply div_nonpos_of_nonpos_of_nonneg _ (le_of_lt hm)
    apply neg_nonpos.mpr
    apply add_nonneg
    · exact le_min (availableLongitudinalForce_nonneg _ _ _) hbrake
    · exact getDragForce_nonneg _ _ (le_of_lt hrho) (le_of_lt hA) hCd
  refine ⟨?_, fun v ay => ⟨haccel v ay, hbrk v ay⟩⟩
  intro v_min v_max v_step ay_max ay_step p hp
  simp only [GGVGenerator.generate, List.mem_flatMap, List.mem_map,
    List.mem_range] at hp
  obtain ⟨i, hi, j, hj, rfl⟩ := hp
  exact ⟨haccel _ _, hbrk _ _⟩

/-- The scenario vehicle of spec §8 (also the source defaults), used as a
concrete instantiation. -/
def vehEx : VehicleParams :=
  { mass := { mass := 800, cog_height := 0.3, wheelbase := 2.5, weight_distribution := 0.45 }
    aero := { Cl := -3, Cd := 0.8, frontal_area := 1.5, air_density := 1.225 }
    tire := { mu_x := 1.6, mu_y := 1.8, load_sensitivity := 0.9, tire_radius := 0.3 }
    powertrain :=
      { engine_torque_curve := [(5000, 250), (10000, 350), (15000, 300)]
        gear_ratios := [3.0, 2.2, 1.7, 1.3, 1.0]
        final_drive_ratio := 3.5, drivetrain_efficiency := 0.95
        max_rpm := 15000, min_rpm := 4000, shift_time := 0.05 }
    brake := { max_brake_force := 20000, brake_bias := 0.6 } }

/-- Witness for C4 at the concrete scenario vehicle. -/
theorem ggv_envelope_bounds_witness :
    ((0 : ℝ) < vehEx.mass.mass ∧ (0 : ℝ) < vehEx.aero.air_density ∧
      (0 : ℝ) < vehEx.aero.frontal_area ∧ (0 : ℝ) ≤ vehEx.aero.Cd ∧
      (0 : ℝ) ≤ vehEx.brake.max_brake_force) ∧
    ((0 ≤ GGVGenerator.calculateMaxAcceleration vehEx 10 5 ∧
      GGVGenerator.calculateMaxAcceleration vehEx 10 5 ≤ 50) ∧
     (-60 ≤ GGVGenerator.calculateMaxBraking vehEx 10 5 ∧
      GGVGenerator.calculateMaxBraking vehEx 10 5 ≤ 0)) :=
  ⟨⟨by norm_num [vehEx], by norm_num [vehEx], by norm_num [vehEx],
      by norm_num [vehEx], by norm_num [vehEx]⟩,
    (ggv_envelope_bounds vehEx (by norm_num [vehEx]) (by norm_num [vehEx])
      (by norm_num [vehEx]) (by norm_num [vehEx]) (by norm_num [vehEx])).2 10 5⟩

/-- A unit-friction tire parameter set (load sensitivity 1, so the effective
μ equals the base μ) used for concrete tire computations. -/
def tireEx : TireParams :=
  { mu_x := 1, mu_y := 1, load_sensitivity := 1, tire_radius := 0.3 }

/-- At the reference load 2000 N the example tire's combined force limit is
exactly 2000 N. -/
theorem tireEx_maxTotal : tireEx.getMaxTotalForce 2000 = 2000 := by
  unfold TireParams.getMaxTotalForce TireParams.getEffectiveMu
    TireParams.applyLoadSensitivity tireEx
  norm_num

/-- **C5 (counterexample).** As stated the ellipse claim fails: at
`Fz = 2000`, `Fy = 10⁶` the available longitudinal force is 0 but
`√(Fx² + Fy²) = 10⁶` far exceeds `F_total_max(Fz) = 2000`, even with a
generous tolerance `ε = 1000`. -/
theorem tire_ellipse_cex :
    ¬(Real.sqrt (tireEx.getAvailableLongitudinalForce 2000 1000000 ^ 2 +
        (1000000 : ℝ) ^ 2) ≤ tireEx.getMaxTotalForce 2000 + 1000) := by
  have havail : tireEx.getAvailableLongitudinalForce 2000 1000000 = 0 := by
    unfold TireParams.getAvailableLongitudinalForce
    dsimp only
    rw [tireEx_maxTotal]
    rw [if_pos (by norm_num)]
  rw [havail, tireEx_maxTotal]
  have h1 : ((0 : ℝ) ^ 2 + (1000000 : ℝ) ^ 2) = (1000000 : ℝ) ^ 2 := by norm_num
  rw [h1, Real.sqrt_sq (by norm_num : (0 : ℝ) ≤ 1000000)]
  norm_num

/-- **C5 (amended).** For all `Fx, Fy, Fz` with `Fz > 0`,
`Fx = getAvailableLongitudinalForce(Fz, Fy)` **and `|Fy|` within the combined
force limit** (the guard the source's friction-circle branch embodies), the
combined force satisfies `√(Fx² + Fy²) ≤ getMaxTotalForce(Fz) + ε` for every
`ε ≥ 0`. -/
theorem tire_ellipse_amended (p : TireParams) (Fz Fy eps : ℝ)
    (hFz : 0 < Fz) (heps : 0 ≤ eps)
    (hFy : |Fy| ≤ p.getMaxTotalForce Fz) :
    Real.sqrt (p.getAvailableLongitudinalForce Fz Fy ^ 2 + Fy ^ 2) ≤
      p.getMaxTotalForce Fz + eps := by
  unfold TireParams.getAvailableLongitudinalForce
  dsimp only
  set M := p.getMaxTotalForce Fz with hM
  have hM0 : 0 ≤ M := le_trans (abs_nonneg Fy) hFy
  split_ifs with h
  · have h2 : ((0 : ℝ) ^ 2 + Fy ^ 2) = Fy ^ 2 := by norm_num
    rw [h2, Real.sqrt_sq_eq_abs]
    linarith
  · push_neg at h
    have hsub : 0 ≤ M * M - Fy * Fy := by linarith
    rw [Real.sq_sqrt hsub]
    have h3 : M * M - Fy * Fy + Fy ^ 2 = M * M := by ring
    rw [h3, Real.sqrt_mul_self hM0]
    linarith

/-- Witness for C5 (amended) at a concrete in-limit input. -/
theorem tire_ellipse_amended_witness :
    ((0 : ℝ) < 2000 ∧ (0 : ℝ) ≤ 0 ∧
      |(1000 : ℝ)| ≤ tireEx.getMaxTotalForce 2000) ∧
    Real.sqrt (tireEx.getAvailableLongitudinalForce 2000 1000 ^ 2 +
      (1000 : ℝ) ^ 2) ≤ tireEx.getMaxTotalForce 2000 + 0 :=
  ⟨⟨by norm_num, by norm_num, by rw [tireEx_maxTotal]; norm_num⟩,
    tire_ellipse_amended tireEx 2000 1000 0 (by norm_num) (by norm_num)
      (by rw [tireEx_maxTotal]; norm_num)⟩

/-- **C7.** `preprocess` fails exactly when the track has fewer than 3 points
(and otherwise leaves the track preprocessed); `interpolateAt`,
`getCurvatureAt` and `isWithinBounds` fail exactly when the track is not yet
preprocessed; `getPoint i` fails exactly when `i` is at least the number of
points. -/
theorem trackdata_failure_spec (t : TrackData) (s n : ℝ) (i : ℕ) :
    (t.preprocess = none ↔ t.points.length < 3) ∧
    ((∃ t', t.preprocess = some t' ∧ t'.preprocessed = true) ↔
      3 ≤ t.points.length) ∧
    ((t.interpolateAt s).isSome ↔ t.preprocessed = true) ∧
    ((t.getCurvatureAt s).isSome ↔ t.preprocessed = true) ∧
    ((t.isWithinBounds s n).isSome ↔ t.preprocessed = true) ∧
    (t.getPoint i = none ↔ t.points.length ≤ i) := by
  refine ⟨?_, ?_, ?_, ?_, ?_, ?_⟩
  · unfold TrackData.preprocess
    split_ifs with h <;> simp [h]
  · unfold TrackData.preprocess
    split_ifs with h
    · simp only [reduceCtorEq, false_and, exists_false, false_iff, not_le]
      exact h
    · constructor
      · intro _; omega
      · intro _
        exact ⟨t.doPreprocess, rfl, rfl⟩
  · unfold TrackData.interpolateAt
    cases hb : t.preprocessed <;> simp [hb]
  · unfold TrackData.getCurvatureAt
    cases hb : t.preprocessed <;> simp [hb]
  · unfold TrackData.isWithinBounds
    cases hb : t.preprocessed <;> simp [hb]
  · unfold TrackData.getPoint
    exact List.get?_eq_none

/-- Length of `calculateArcLength`'s output. -/
theorem calculateArcLength_length (pts : List TrackPoint) :
    (calculateArcLength pts).1.length = pts.length := by
  unfold calculateArcLength
  simp

/-- Length of `calculateHeading`'s output. -/
theorem calculateHeading_length (pts : List TrackPoint) :
    (calculateHeading pts).length = pts.length := by
  unfold calculateHeading
  simp

/-- Length of `calculateCurvature`'s output. -/
theorem calculateCurvature_length (pts : List TrackPoint) (total : ℝ) :
    (calculateCurvature pts total).length = pts.length := by
  unfold calculateCurvature
  simp

/-- The point list produced by `doPreprocess` has the input's length. -/
theorem doPreprocess_length (t : TrackData) :
    t.doPreprocess.points.length = t.points.length := by
  unfold TrackData.doPreprocess
  dsimp only
  rw [calculateCurvature_length, calculateHeading_length, calculateArcLength_length]

/-- `doPreprocess` computes `s[i]` as the cumulative arc length and `ds[i]`
as the distance to the cyclically next point. -/
theorem doPreprocess_getD (t : TrackData) (i : ℕ) (h : i < t.points.length) :
    (t.doPreprocess.points.getD i TrackPoint.zero).s = arcS t.points i ∧
    (t.doPreprocess.points.getD i TrackPoint.zero).ds =
      (if i + 1 < t.points.length
       then dist3 (t.points.getD i TrackPoint.zero)
              (t.points.getD (i + 1) TrackPoint.zero)
       else dist3 (t.points.getD (t.points.length - 1) TrackPoint.zero)
              (t.points.getD 0 TrackPoint.zero)) := by
  unfold TrackData.doPreprocess
  dsimp only
  unfold calculateCurvature
  dsimp only
  rw [calculateHeading_length, calculateArcLength_length]
  rw [getD_range_map _ _ _ _ h]
  unfold calculateHeading
  dsimp only
  rw [calculateArcLength_length]
  rw [getD_range_map _ _ _ _ h]
  unfold calculateArcLength
  dsimp only
  rw [getD_range_map _ _ _ _ h]
  exact ⟨rfl, rfl⟩

/-- `doPreprocess` computes the total length as `s[N−1] + ds[N−1]`. -/
theorem doPreprocess_total (t : TrackData) (h : t.points.length ≠ 0) :
    t.doPreprocess.total_length =
      arcS t.points (t.points.length - 1) +
      dist3 (t.points.getD (t.points.length - 1) TrackPoint.zero)
        (t.points.getD 0 TrackPoint.zero) := by
  unfold TrackData.doPreprocess calculateArcLength
  dsimp only
  rw [if_neg h]

/-- Distance between points differing in some coordinate is positive. -/
theorem dist3_pos (p q : TrackPoint) (h : p.x ≠ q.x ∨ p.y ≠ q.y ∨ p.z ≠ q.z) :
    0 < dist3 p q := by
  unfold dist3
  apply Real.sqrt_pos.mpr
  rcases h with h | h | h
  · have h1 : 0 < (q.x - p.x) * (q.x - p.x) :=
      mul_self_pos.mpr (sub_ne_zero.mpr (Ne.symm h))
    nlinarith [mul_self_nonneg (q.y - p.y), mul_self_nonneg (q.z - p.z)]
  · have h1 : 0 < (q.y - p.y) * (q.y - p.y) :=
      mul_self_pos.mpr (sub_ne_zero.mpr (Ne.symm h))
    nlinarith [mul_self_nonneg (q.x - p.x), mul_self_nonneg (q.z - p.z)]
  · have h1 : 0 < (q.z - p.z) * (q.z - p.z) :=
      mul_self_pos.mpr (sub_ne_zero.mpr (Ne.symm h))
    nlinarith [mul_self_nonneg (q.x - p.x), mul_self_nonneg (q.y - p.y)]

/-- **C8 (amended).** After `preprocess` on any track with `N ≥ 3` points:
`s[0] = 0`; `s[i+1] = s[i] + ds[i]` with `ds[i]` the 3-D distance between
consecutive points; the total length equals `s[N−1] + ds[N−1]` with
`ds[N−1]` the wrap distance from the last point back to the first; and the
arc lengths are strictly increasing **at every step whose consecutive points
are at distinct 3-D positions** (with coincident consecutive points the step
is merely non-decreasing, see the counterexample). -/
theorem preprocess_arc_spec (t : TrackData) (h3 : 3 ≤ t.points.length) :
    t.preprocess = some t.doPreprocess ∧
    t.doPreprocess.points.length = t.points.length ∧
    (t.doPreprocess.points.getD 0 TrackPoint.zero).s = 0 ∧
    (∀ i, i + 1 < t.points.length →
      (t.doPreprocess.points.getD (i + 1) TrackPoint.zero).s =
        (t.doPreprocess.points.getD i TrackPoint.zero).s +
          (t.doPreprocess.points.getD i TrackPoint.zero).ds ∧
      (t.doPreprocess.points.getD i TrackPoint.zero).ds =
        dist3 (t.points.getD i TrackPoint.zero)
          (t.points.getD (i + 1) TrackPoint.zero)) ∧
    t.doPreprocess.total_length =
      (t.doPreprocess.points.getD (t.points.length - 1) TrackPoint.zero).s +
        (t.doPreprocess.points.getD (t.points.length - 1) TrackPoint.zero).ds ∧
    (t.doPreprocess.points.getD (t.points.length - 1) TrackPoint.zero).ds =
      dist3 (t.points.getD (t.points.length - 1) TrackPoint.zero)
        (t.points.getD 0 TrackPoint.zero) ∧
    (∀ i, i + 1 < t.points.length →
      ((t.points.getD i TrackPoint.zero).x ≠
          (t.points.getD (i + 1) TrackPoint.zero).x ∨
        (t.points.getD i TrackPoint.zero).y ≠
          (t.points.getD (i + 1) TrackPoint.zero).y ∨
        (t.points.getD i TrackPoint.zero).z ≠
          (t.points.getD (i + 1) TrackPoint.zero).z) →
      (t.doPreprocess.points.getD i TrackPoint.zero).s <
        (t.doPreprocess.points.getD (i + 1) TrackPoint.zero).s) := by
  have hN : t.points.length ≠ 0 := by omega
  have hds : ∀ i, i + 1 < t.points.length →
      (t.doPreprocess.points.getD i TrackPoint.zero).ds =
        dist3 (t.points.getD i TrackPoint.zero)
          (t.points.getD (i + 1) TrackPoint.zero) := by
    intro i hi
    rw [(doPreprocess_getD t i (by omega)).2, if_pos hi]
  have hs : ∀ i, i < t.points.length →
      (t.doPreprocess.points.getD i TrackPoint.zero).s = arcS t.points i :=
    fun i hi => (doPreprocess_getD t i hi).1
  refine ⟨?_, doPreprocess_length t, ?_, ?_, ?_, ?_, ?_⟩
  · unfold TrackData.preprocess
    rw [if_neg (by omega)]
  · rw [hs 0 (by omega)]; rfl
  · intro i hi
    refine ⟨?_, hds i hi⟩
    rw [hs (i + 1) hi, hs i (by omega), hds i hi]
    rfl
  · rw [hs (t.points.length - 1) (by omega), doPreprocess_total t hN,
      (doPreprocess_getD t (t.points.length - 1) (by omega)).2,
      if_neg (by omega)]
  · rw [(doPreprocess_getD t (t.points.length - 1) (by omega)).2,
      if_neg (by omega)]
  · intro i hi hc
    rw [hs i (by omega), hs (i + 1) hi]
    have hpos : 0 < dist3 (t.points.getD i TrackPoint.zero)
        (t.points.getD (i + 1) TrackPoint.zero) := dist3_pos _ _ hc
    have hstep : arcS t.points (i + 1) = arcS t.points i +
        dist3 (t.points.getD i TrackPoint.zero)
          (t.points.getD (i + 1) TrackPoint.zero) := rfl
    rw [hstep]
    linarith

/-- A degenerate 3-point track whose points all coincide. -/
def trackCex : TrackData :=
  { points := [TrackPoint.zero, TrackPoint.zero, TrackPoint.zero]
    total_length := 0, preprocessed := false }

/-- **C8 (counterexample).** On the degenerate coincident-point track,
`preprocess` succeeds but the arc lengths are *not* strictly increasing:
`s[1] = s[0] = 0`. -/
theorem preprocess_arc_cex :
    trackCex.preprocess = some trackCex.doPreprocess ∧
    ¬((trackCex.doPreprocess.points.getD 0 TrackPoint.zero).s <
        (trackCex.doPreprocess.points.getD 1 TrackPoint.zero).s) := by
  constructor
  · unfold TrackData.preprocess
    rw [if_neg (by norm_num [trackCex])]
  · rw [(doPreprocess_getD trackCex 0 (by norm_num [trackCex])).1,
      (doPreprocess_getD trackCex 1 (by norm_num [trackCex])).1]
    have h0 : arcS trackCex.points 0 = 0 := rfl
    have h1 : arcS trackCex.points 1 = 0 := by
      show arcS trackCex.points 0 + dist3 _ _ = 0
      rw [h0]
      norm_num [trackCex, dist3, TrackPoint.zero, Real.sqrt_zero]
    rw [h0, h1]
    norm_num

/-- A concrete 3-point track with pairwise-distinct consecutive points. -/
def triTrack : TrackData :=
  { points :=
      [{ TrackPoint.zero with x := 0 },
       { TrackPoint.zero with x := 1 },
       { TrackPoint.zero with x := 1, y := 1 }]
    total_length := 0, preprocessed := false }

/-- Witness for C8 (amended) at the concrete triangle track. -/
theorem preprocess_arc_spec_witness :
    3 ≤ triTrack.points.length ∧
    triTrack.preprocess = some triTrack.doPreprocess ∧
    (triTrack.doPreprocess.points.getD 0 TrackPoint.zero).s <
      (triTrack.doPreprocess.points.getD 1 TrackPoint.zero).s := by
  have h := preprocess_arc_spec triTrack (by norm_num [triTrack])
  refine ⟨by norm_num [triTrack], h.1, ?_⟩
  apply h.2.2.2.2.2.2 0 (by norm_num [triTrack])
  left
  norm_num [triTrack, TrackPoint.zero]

/-- The interpolation scan stays nonnegative on a key-sorted curve with
nonnegative torques, when the query lies at or above the current key. -/
theorem torqueScan_nonneg :
    ∀ (rest : List (ℝ × ℝ)) (r1 t1 rpm : ℝ), 0 ≤ t1 →
      (∀ q ∈ rest, 0 ≤ q.2) →
      List.Chain' (fun a b : ℝ × ℝ => a.1 < b.1) ((r1, t1) :: rest) →
      r1 ≤ rpm → 0 ≤ torqueScan rpm (r1, t1) rest := by
  intro rest
  induction rest with
  | nil =>
    intro r1 t1 rpm h1 _ _ _
    exact h1
  | cons hd tl ih =>
    intro r1 t1 rpm h1 h2 hchain hle
    obtain ⟨r2, t2⟩ := hd
    have hr12 : r1 < r2 := (List.chain'_cons.mp hchain).1
    have ht2 : 0 ≤ t2 := h2 (r2, t2) (List.mem_cons_self _ _)
    unfold torqueScan
    split_ifs with hlt
    · have htt0 : 0 ≤ (rpm - r1) / (r2 - r1) :=
        div_nonneg (by linarith) (by linarith)
      have htt1 : (rpm - r1) / (r2 - r1) ≤ 1 :=
        (div_le_one (by linarith)).mpr (by linarith)
      nlinarith
    · exact ih r2 t2 rpm ht2 (fun q hq => h2 q (List.mem_cons_of_mem _ hq))
        (List.chain'_cons.mp hchain).2 (le_of_not_lt hlt)

/-- The last entry of a cons list is a member of it. -/
theorem getLastD_mem_cons' {α : Type} : ∀ (l : List α) (a : α), l.getLastD a ∈ a :: l
  | [], _ => List.mem_cons_self _ _
  | hd :: tl, a => by
    rw [List.getLastD_cons]
    exact List.mem_cons_of_mem a (getLastD_mem_cons' tl hd)

/-- Interpolated torque is nonnegative on a key-sorted curve with
nonnegative torques. -/
theorem getTorqueAt_nonneg (p : PowertrainParams)
    (hsort : List.Chain' (fun a b : ℝ × ℝ => a.1 < b.1) p.engine_torque_curve)
    (htq : ∀ q ∈ p.engine_torque_curve, 0 ≤ q.2) (rpm : ℝ) :
    0 ≤ p.getTorqueAt rpm := by
  unfold PowertrainParams.getTorqueAt
  split
  · exact le_refl 0
  · rename_i r0 t0 rest heq
    dsimp only
    split_ifs with hle hlast
    · exact htq (r0, t0) (by rw [heq]; exact List.mem_cons_self _ _)
    · have hmem : rest.getLastD (r0, t0) ∈ (r0, t0) :: rest :=
        getLastD_mem_cons' rest (r0, t0)
      exact htq _ (by rw [heq]; exact hmem)
    · apply torqueScan_nonneg rest r0 t0 (max 0 rpm)
        (htq (r0, t0) (by rw [heq]; exact List.mem_cons_self _ _))
        (fun q hq => htq q (by rw [heq]; exact List.mem_cons_of_mem _ hq))
        (heq ▸ hsort) (le_of_lt (lt_of_not_le hle))

/-- A list of nonnegative reals reads nonnegative through `getD` with
default 0. -/
theorem getD_nonneg (l : List ℝ) (i : ℕ) (h : ∀ r ∈ l, 0 ≤ r) :
    0 ≤ l.getD i 0 := by
  by_cases hi : i < l.length
  · rw [List.getD_eq_getElem l 0 hi]
    exact h _ (List.getElem_mem hi)
  · rw [List.getD_eq_default l 0 (le_of_not_lt hi)]

/-- `getWheelForce` is nonnegative under the data-model sign constraints. -/
theorem getWheelForce_nonneg (m : PowertrainModel)
    (hsort : List.Chain' (fun a b : ℝ × ℝ => a.1 < b.1) m.params.engine_torque_curve)
    (htq : ∀ q ∈ m.params.engine_torque_curve, 0 ≤ q.2)
    (hratios : ∀ r ∈ m.params.gear_ratios, 0 ≤ r)
    (hfd : 0 ≤ m.params.final_drive_ratio)
    (heff : 0 ≤ m.params.drivetrain_efficiency)
    (hr : 0 < m.tire_radius) (v : ℝ) (g : ℤ) :
    0 ≤ m.getWheelForce v g := by
  unfold PowertrainModel.getWheelForce
  dsimp only
  split_ifs
  · exact le_refl 0
  · exact le_refl 0
  · apply div_nonneg _ (le_of_lt hr)
    apply mul_nonneg _ heff
    apply mul_nonneg
    · exact getTorqueAt_nonneg m.params hsort htq _
    · unfold PowertrainModel.getTotalGearRatio
      split_ifs
      · exact mul_nonneg (getD_nonneg _ _ hratios) hfd
      · exact le_refl 0

/-- The seed of the gear fold is a lower bound of the fold. -/
theorem le_foldl_max (f : ℕ → ℝ) :
    ∀ (l : List ℕ) (acc : ℝ), acc ≤ l.foldl (fun a i => max a (f i)) acc
  | [], acc => le_refl acc
  | hd :: tl, acc =>
    le_trans (le_max_left acc (f hd)) (le_foldl_max f tl (max acc (f hd)))

/-- **C10.** Under the data-model sign constraints (sorted torque keys,
nonnegative torques, nonnegative gear ratios, final drive and efficiency,
positive tire radius), `getMaxWheelForce v` is nonnegative for every
velocity `v`, and for `v ≤ 0` it does not return 0 by default but instead
returns `getWheelForce 0.01 1`, the first-gear wheel force at 0.01 m/s. -/
theorem getMaxWheelForce_spec (m : PowertrainModel)
    (hsort : List.Chain' (fun a b : ℝ × ℝ => a.1 < b.1) m.params.engine_torque_curve)
    (htq : ∀ q ∈ m.params.engine_torque_curve, 0 ≤ q.2)
    (hratios : ∀ r ∈ m.params.gear_ratios, 0 ≤ r)
    (hfd : 0 ≤ m.params.final_drive_ratio)
    (heff : 0 ≤ m.params.drivetrain_efficiency)
    (hr : 0 < m.tire_radius) (v : ℝ) :
    0 ≤ m.getMaxWheelForce v ∧
    (v ≤ 0 → m.getMaxWheelForce v = m.getWheelForce 0.01 1) := by
  constructor
  · unfold PowertrainModel.getMaxWheelForce
    split_ifs with hv
    · exact getWheelForce_nonneg m hsort htq hratios hfd heff hr 0.01 1
    · exact le_foldl_max _ _ 0
  · intro hv
    unfold PowertrainModel.getMaxWheelForce
    rw [if_pos hv]

/-- The scenario powertrain with a 0.3 m tire radius. -/
def pmEx : PowertrainModel := { params := vehEx.powertrain, tire_radius := 0.3 }

/-- Witness for C10 at the concrete scenario powertrain and `v = −2`. -/
theorem getMaxWheelForce_spec_witness :
    (List.Chain' (fun a b : ℝ × ℝ => a.1 < b.1) pmEx.params.engine_torque_curve ∧
      (∀ q ∈ pmEx.params.engine_torque_curve, 0 ≤ q.2) ∧
      (∀ r ∈ pmEx.params.gear_ratios, 0 ≤ r) ∧
      0 ≤ pmEx.params.final_drive_ratio ∧
      0 ≤ pmEx.params.drivetrain_efficiency ∧
      0 < pmEx.tire_radius) ∧
    (0 ≤ pmEx.getMaxWheelForce (-2) ∧
      ((-2 : ℝ) ≤ 0 → pmEx.getMaxWheelForce (-2) = pmEx.getWheelForce 0.01 1)) := by
  have hsort : List.Chain' (fun a b : ℝ × ℝ => a.1 < b.1)
      pmEx.params.engine_torque_curve := by
    simp only [pmEx, vehEx, List.chain'_cons, List.chain'_singleton]
    norm_num
  have htq : ∀ q ∈ pmEx.params.engine_torque_curve, 0 ≤ q.2 := by
    intro q hq
    simp only [pmEx, vehEx, List.mem_cons, List.not_mem_nil, or_false] at hq
    rcases hq with rfl | rfl | rfl <;> norm_num
  have hratios : ∀ r ∈ pmEx.params.gear_ratios, 0 ≤ r := by
    intro r hrr
    simp only [pmEx, vehEx, List.mem_cons, List.not_mem_nil, or_false] at hrr
    rcases hrr with rfl | rfl | rfl | rfl | rfl <;> norm_num
  refine ⟨⟨hsort, htq, hratios, by norm_num [pmEx, vehEx], by norm_num [pmEx, vehEx],
    by norm_num [pmEx]⟩, ?_⟩
  exact getMaxWheelForce_spec pmEx hsort htq hratios (by norm_num [pmEx, vehEx])
    (by norm_num [pmEx, vehEx]) (by norm_num [pmEx]) (-2)

/-- A freshly generated GGV diagram carries the `generated` flag. -/
theorem generate_generated (veh : VehicleParams) (a b c d e : ℝ) :
    (GGVGenerator.generate veh a b c d e).generated = true := rfl

/-- `getMaxAcceleration` on a generated diagram never throws. -/
theorem getMaxAcceleration_eq (st : GGVState) (h : st.generated = true)
    (v ay : ℝ) :
    st.getMaxAcceleration v ay = some (st.interpolateAcceleration v |ay|) := by
  unfold GGVState.getMaxAcceleration
  rw [if_pos h]

/-- `getMaxBraking` on a generated diagram never throws. -/
theorem getMaxBraking_eq (st : GGVState) (h : st.generated = true) (v ay : ℝ) :
    st.getMaxBraking v ay = some (st.interpolateBraking v |ay|) := by
  unfold GGVState.getMaxBraking
  rw [if_pos h]

/-- `getPoint` succeeds on every in-range index. -/
theorem getPoint_isSome (t : TrackData) (i : ℕ) (h : i < t.points.length) :
    ∃ pt, t.getPoint i = some pt := by
  unfold TrackData.getPoint
  rw [List.get?_eq_get h]
  exact ⟨_, rfl⟩

/-- `calculateCorneringLimit` succeeds on every track. -/
theorem calculateCorneringLimit_isSome (track : TrackData) (veh : VehicleParams) :
    ∃ vc, QSS.calculateCorneringLimit track veh = some vc := by
  unfold QSS.calculateCorneringLimit
  have key : ∀ (l : List ℕ), (∀ i ∈ l, i < track.points.length) →
      ∃ vc, (l.mapM fun i =>
        (track.getPoint i).map fun pt =>
          QSS.solveCorneringVelocity veh pt.kappa) = some vc := by
    intro l
    induction l with
    | nil => exact fun _ => ⟨[], rfl⟩
    | cons hd tl ih =>
      intro hmem
      obtain ⟨pt, hpt⟩ := getPoint_isSome track hd (hmem hd (List.mem_cons_self _ _))
      obtain ⟨vctl, hvctl⟩ := ih fun i hi => hmem i (List.mem_cons_of_mem _ hi)
      refine ⟨QSS.solveCorneringVelocity veh pt.kappa :: vctl, ?_⟩
      rw [List.mapM_cons, hpt, hvctl]
      rfl
  exact key (List.range track.points.length) fun i hi => List.mem_range.mp hi

/-- The forward sweep succeeds while the running index stays in range. -/
theorem forwardAux_isSome (track : TrackData) (ggv : GGVState) (vc : List ℝ)
    (hg : ggv.generated = true) :
    ∀ (fuel i : ℕ) (va : List ℝ), i + fuel < track.points.length →
      ∃ va1, QSS.forwardAux track ggv vc fuel i va = some va1 := by
  intro fuel
  induction fuel with
  | zero => exact fun i va _ => ⟨va, rfl⟩
  | succ k ih =>
    intro i va h
    obtain ⟨pt, hpt⟩ := getPoint_isSome track i (by omega)
    unfold QSS.forwardAux
    simp only [hpt, getMaxAcceleration_eq ggv hg, Option.bind_eq_bind,
      Option.some_bind]
    exact ih (i + 1) _ (by omega)

/-- `forwardIntegration` succeeds on a nonempty track with generated GGV. -/
theorem forwardIntegration_isSome (track : TrackData) (ggv : GGVState)
    (vc va : List ℝ) (hg : ggv.generated = true)
    (hn : 1 ≤ track.points.length) :
    ∃ va1, QSS.forwardIntegration track ggv vc va = some va1 := by
  unfold QSS.forwardIntegration
  obtain ⟨vaS, hvaS⟩ := forwardAux_isSome track ggv vc hg
    (track.points.length - 1) 0 va (by omega)
  obtain ⟨pt, hpt⟩ := getPoint_isSome track (track.points.length - 1) (by omega)
  simp only [hvaS, hpt, getMaxAcceleration_eq ggv hg, Option.bind_eq_bind,
    Option.some_bind]
  exact ⟨_, rfl⟩

/-- The backward sweep succeeds while the running index stays in range. -/
theorem backwardAux_isSome (track : TrackData) (ggv : GGVState) (vc : List ℝ)
    (hg : ggv.generated = true) :
    ∀ (fuel i : ℕ) (vb : List ℝ), i < track.points.length →
      ∃ vb1, QSS.backwardAux track ggv vc fuel i vb = some vb1 := by
  intro fuel
  induction fuel with
  | zero => exact fun i vb _ => ⟨vb, rfl⟩
  | succ k ih =>
    intro i vb h
    obtain ⟨ptp, hptp⟩ := getPoint_isSome track (i - 1) (by omega)
    obtain ⟨pti, hpti⟩ := getPoint_isSome track i h
    unfold QSS.backwardAux
    simp only [hptp, hpti, getMaxBraking_eq ggv hg, Option.bind_eq_bind,
      Option.some_bind]
    exact ih (i - 1) _ (by omega)

/-- `backwardIntegration` succeeds on a nonempty track with generated GGV. -/
theorem backwardIntegration_isSome (track : TrackData) (ggv : GGVState)
    (vc vb : List ℝ) (hg : ggv.generated = true)
    (hn : 1 ≤ track.points.length) :
    ∃ vb1, QSS.backwardIntegration track ggv vc vb = some vb1 := by
  unfold QSS.backwardIntegration
  obtain ⟨vbS, hvbS⟩ := backwardAux_isSome track ggv vc hg
    (track.points.length - 1) (track.points.length - 1) vb (by omega)
  obtain ⟨ptl, hptl⟩ := getPoint_isSome track (track.points.length - 1) (by omega)
  obtain ⟨pt0, hpt0⟩ := getPoint_isSome track 0 (by omega)
  simp only [hvbS, hptl, hpt0, getMaxBraking_eq ggv hg, Option.bind_eq_bind,
    Option.some_bind]
  exact ⟨_, rfl⟩

/-- `calculateLapTime` succeeds on every track. -/
theorem calculateLapTime_isSome (track : TrackData) (vopt : List ℝ) :
    ∃ lap, QSS.calculateLapTime track vopt = some lap := by
  unfold QSS.calculateLapTime
  have key : ∀ (l : List ℕ), (∀ i ∈ l, i < track.points.length) → ∀ (acc : ℝ),
      ∃ lap, (l.foldlM (fun acc i => do
        let point ← track.getPoint i
        pure (if 0 < vopt.getD i 0 then acc + point.ds / vopt.getD i 0 else acc))
          acc) = some lap := by
    intro l
    induction l with
    | nil => exact fun _ acc => ⟨acc, rfl⟩
    | cons hd tl ih =>
      intro hmem acc
      obtain ⟨pt, hpt⟩ := getPoint_isSome track hd (hmem hd (List.mem_cons_self _ _))
      obtain ⟨lap, hlap⟩ := ih (fun i hi => hmem i (List.mem_cons_of_mem _ hi))
        (if 0 < vopt.getD hd 0 then acc + pt.ds / vopt.getD hd 0 else acc)
      refine ⟨lap, ?_⟩
      simp only [List.foldlM_cons, hpt, Option.bind_eq_bind, Option.some_bind,
        Option.pure_def]
      exact hlap
  exact key (List.range track.points.length) (fun i hi => List.mem_range.mp hi) 0

/-- The iteration loop always terminates successfully and performs at most
`fuel` further iterations. -/
theorem solveLoop_spec (track : TrackData) (ggv : GGVState) (vc : List ℝ)
    (tol : ℝ) (hg : ggv.generated = true) (hn : 1 ≤ track.points.length) :
    ∀ (fuel : ℕ) (va vb : List ℝ) (lap prev : ℝ) (iters : ℕ),
      ∃ res, QSS.solveLoop track ggv vc tol fuel va vb lap prev iters = some res ∧
        res.2.1 ≤ iters + fuel := by
  intro fuel
  induction fuel with
  | zero =>
    intro va vb lap prev iters
    exact ⟨(lap, iters, false), rfl, by simp⟩
  | succ k ih =>
    intro va vb lap prev iters
    obtain ⟨va1, hva1⟩ := forwardIntegration_isSome track ggv vc va hg hn
    obtain ⟨vb1, hvb1⟩ := backwardIntegration_isSome track ggv vc vb hg hn
    obtain ⟨lap1, hlap1⟩ := calculateLapTime_isSome track
      (QSS.combineProfiles track.points.length vc va1 vb1)
    unfold QSS.solveLoop
    simp only [hva1, hvb1, hlap1, Option.bind_eq_bind, Option.some_bind]
    split_ifs with hconv
    · exact ⟨(lap1, iters + 1, true), rfl, by simp⟩
    · obtain ⟨res, hres, hre⟩ := ih va1 vb1 lap1 lap1 (iters + 1)
      exact ⟨res, hres, by omega⟩

/-- **C2.** For every preprocessed track with at least 3 points and every
vehicle parameter set satisfying `validate`, `solve(max_iterations,
tolerance)` with `max_iterations ≥ 1` raises no error and returns a (real,
hence finite) lap time, performing at most `max_iterations` iterations. -/
theorem solve_no_failure (track : TrackData) (veh : VehicleParams)
    (max_iterations : ℕ) (tolerance : ℝ)
    (hpre : track.preprocessed = true) (h3 : 3 ≤ track.points.length)
    (hval : veh.validate) (hiter : 1 ≤ max_iterations) :
    ∃ lap iters conv,
      QSS.solve track veh max_iterations tolerance = some (lap, iters, conv) ∧
      iters ≤ max_iterations := by
  unfold QSS.solve
  rw [if_pos ⟨hpre, hval⟩]
  obtain ⟨vc, hvc⟩ := calculateCorneringLimit_isSome track veh
  simp only [hvc, Option.bind_eq_bind, Option.some_bind]
  obtain ⟨⟨lap, iters, conv⟩, hres, hle⟩ := solveLoop_spec track
    (GGVGenerator.generate veh 0 120 0.5 50 1) vc tolerance
    (generate_generated veh 0 120 0.5 50 1) (by omega) max_iterations
    ((List.range track.points.length).map fun i => min 50 (vc.getD i 0))
    ((List.range track.points.length).map fun i => min 50 (vc.getD i 0))
    0 1000000000 0
  exact ⟨lap, iters, conv, hres, by simpa using hle⟩

/-- A minimal (already preprocessed) closed 3-point track used to
instantiate the solver. -/
def solveTrackEx : TrackData :=
  { points := [TrackPoint.zero, TrackPoint.zero, TrackPoint.zero]
    total_length := 0, preprocessed := true }

/-- Witness for C2 at a concrete track, vehicle, and iteration budget. -/
theorem solve_no_failure_witness :
    (solveTrackEx.preprocessed = true ∧ 3 ≤ solveTrackEx.points.length ∧
      vehEx.validate ∧ 1 ≤ 5) ∧
    (∃ lap iters conv,
      QSS.solve solveTrackEx vehEx 5 0.001 = some (lap, iters, conv) ∧
      iters ≤ 5) := by
  have hval : vehEx.validate := by
    unfold VehicleParams.validate vehEx
    norm_num
    exact ⟨by simp, by simp⟩
  refine ⟨⟨rfl, by norm_num [solveTrackEx], hval, by norm_num⟩, ?_⟩
  exact solve_no_failure solveTrackEx vehEx 5 0.001 rfl
    (by norm_num [solveTrackEx]) hval (by norm_num)

open Classical in
/-- **C9.** `getAverageSpeed` returns the last state's arc length `s` divided
by `lap_time` when the state sequence is non-empty and `lap_time > 0`, and 0
otherwise — i.e. it uses the last state's `s` as total distance, not the
geometric total length. -/
theorem getAverageSpeed_spec (r : LapResult) :
    r.getAverageSpeed =
      if r.states ≠ [] ∧ 0 < r.lap_time
      then (r.states.getLastD SimulationState.reset).s / r.lap_time
      else 0 := by
  unfold LapResult.getAverageSpeed
  by_cases he : r.states = []
  · simp [he]
  · by_cases hl : r.lap_time ≤ 0
    · rw [if_pos (Or.inr hl), if_neg (by rintro ⟨-, h⟩; exact absurd hl (not_le.mpr h))]
    · rw [if_neg (not_or.mpr ⟨he, hl⟩), if_pos he, if_pos ⟨he, lt_of_not_le hl⟩]

end LapTimeSim
